import Mathlib

/-!
Verification development for the GPTree chat backend.

Shallow embedding of the core logic of `backend/routers/chat.py`,
`backend/routers/conversations.py` and `backend/llm_providers/openai.py`.

Modelling conventions:
* The Conversation Store (Supabase) is modelled as in-memory lists of rows;
  an `.eq(...)` filter chain becomes `List.filter`, `.order(col)` on query
  results becomes the ordered list handed to the function (for history loads)
  or an explicit `mergeSort` (for the listing endpoint), `.single()` becomes
  a match requiring exactly one row, inserts append rows, updates map over
  rows.  Database-generated values (uuids, `created_at` / `updated_at`
  timestamps) are explicit parameters.
* Python floats (`temperature`) are modelled as `Rat`; no claim depends on
  float rounding.
* Wall-clock times from `asyncio.get_event_loop().time()` are modelled as
  `Int` seconds.
* Fallible code returns `Except String`.
-/

/-- A prompt entry, the `\x7b"role": ..., "content": ...\x7d` dict sent to the
provider. -/
structure ChatMsg where
  role : String
  content : String
deriving DecidableEq, Repr

/-- One entry of a message's `indices_for_button` annotation list; the JSON
keys are `start`, `end` (here `stop`, since `end` is a Lean keyword) and
`conversation_id`. -/
structure Annotation where
  start : Int
  stop : Int
  conversation_id : String
deriving DecidableEq, Repr

/-- The raw JSON value stored in a message row's `indices_for_button` column:
it can be absent/null, present but not a list (malformed), or an actual
list. -/
inductive StoredAnnotations where
  | absent : StoredAnnotations
  | notAList : StoredAnnotations
  | stored : List Annotation → StoredAnnotations
deriving DecidableEq, Repr

/-- A row of the `messages` table. -/
structure Msg where
  message_id : String
  conversation_id : String
  user_id : String
  role : String
  content : String
  created_at : Nat
  indices_for_button : StoredAnnotations
deriving DecidableEq, Repr

/-- A row of the `conversations` table. -/
structure ConvRow where
  conversation_id : String
  user_id : String
  title : String
  model : String
  temperature : Rat
  is_side_thread : Bool
  parent_message_id : Option String
  parent_conversation_id : Option String
  updated_at : Nat
deriving DecidableEq, Repr

/-- Projection of a stored message row to the prompt entry
`\x7b"role": msg["role"], "content": msg["content"]\x7d` built throughout
`chat_stream`. -/
def toChatMsg (m : Msg) : ChatMsg :=
  { role := m.role, content := m.content }

/-- The duplicate-suppression append shared by the side-thread and main
branches of `chat_stream` (chat.py lines 129-138 and 156-166): if the request
supplied messages, take the first `user`-role one and append it unless its
content equals the content of the last prompt entry. -/
def appendNewUser (base : List ChatMsg) (messages : List ChatMsg) : List ChatMsg :=
  if messages.isEmpty then base
  else
    match messages.find? (fun m => m.role == "user") with
    | none => base
    | some nu =>
      match base.getLast? with
      | none => base ++ [{ role := nu.role, content := nu.content }]
      | some lastMsg =>
        if lastMsg.content == nu.content then base
        else base ++ [{ role := nu.role, content := nu.content }]

/-- The `parent_msg_index` computed by the loop at chat.py lines 99-104:
the index of the first message whose `message_id` equals the parent message
id, and `-1` when there is none. -/
def parentMsgIndex (hist : List Msg) (parent_msg_id : String) : Int :=
  match hist.findIdx? (fun m => m.message_id == parent_msg_id) with
  | some i => (i : Int)
  | none => -1

/-- The slice `parent_messages_response.data[:parent_msg_index + 1]` of
chat.py line 109 (so the empty list when the parent message id is absent,
since `-1 + 1 = 0`). -/
def parentSlice (hist : List Msg) (parent_msg_id : String) : List Msg :=
  hist.take (parentMsgIndex hist parent_msg_id + 1).toNat

/-- Prompt assembly for the side-thread branch of `chat_stream`
(chat.py lines 85-138): the parent conversation's history (already ordered
ascending by `created_at`, as delivered by the store) truncated at the parent
message, then the side thread's own messages, then the duplicate-suppressed
new user message. -/
def assembleSideThreadList (parentHist sideHist : List Msg) (parent_msg_id : String)
    (messages : List ChatMsg) : List ChatMsg :=
  let base :=
    if parentHist.isEmpty then []
    else (parentSlice parentHist parent_msg_id).map toChatMsg
  let base2 := base ++ sideHist.map toChatMsg
  appendNewUser base2 messages

/-- The side-thread branch as run inside the route handler: this branch of the
code raises no exception, so the result is always `Except.ok`. -/
def assembleSideThread (parentHist sideHist : List Msg) (parent_msg_id : String)
    (messages : List ChatMsg) : Except String (List ChatMsg) :=
  Except.ok (assembleSideThreadList parentHist sideHist parent_msg_id messages)

/-- Prompt assembly for the non-side-thread continuation branch of
`chat_stream` (chat.py lines 139-174): use the stored history (ordered
ascending) plus the duplicate-suppressed new user message; with no stored
history fall back to the supplied messages, rejecting an empty request. -/
def assembleMain (hist : List Msg) (messages : List ChatMsg) :
    Except String (List ChatMsg) :=
  if hist.isEmpty then
    if messages.isEmpty then
      Except.error "No conversation history found and no messages provided"
    else
      Except.ok (messages.map fun m => { role := m.role, content := m.content })
  else
    Except.ok (appendNewUser (hist.map toChatMsg) messages)

/-- Prompt assembly for a new conversation (chat.py lines 64-72): the supplied
messages verbatim, rejecting an empty request. -/
def assembleNew (messages : List ChatMsg) : Except String (List ChatMsg) :=
  if messages.isEmpty then
    Except.error "Messages are required for new conversations"
  else
    Except.ok (messages.map fun m => { role := m.role, content := m.content })

/-- Python `str.strip()`: drop leading and trailing whitespace. -/
def pyStrip (s : String) : String :=
  String.mk (((s.toList.dropWhile Char.isWhitespace).reverse.dropWhile
    Char.isWhitespace).reverse)

/-- Python slicing `s[:n]` over code points. -/
def pyTake (s : String) (n : Nat) : String :=
  String.mk (s.toList.take n)

/-- Accumulator loop for Python `str.split()`: words are maximal runs of
non-whitespace characters; `cur` holds the current word reversed. -/
def splitWsAux : List Char → List Char → List String
  | [], cur => if cur.isEmpty then [] else [String.mk cur.reverse]
  | c :: cs, cur =>
    if c.isWhitespace then
      if cur.isEmpty then splitWsAux cs []
      else String.mk cur.reverse :: splitWsAux cs []
    else splitWsAux cs (c :: cur)

/-- Python `str.split()` with no separator: split on runs of whitespace,
discarding empty pieces. -/
def splitWs (s : String) : List String :=
  splitWsAux s.toList []

/-- Python `" ".join(words)`. -/
def joinSpace : List String → String
  | [] => ""
  | [w] => w
  | w :: ws => w ++ " " ++ joinSpace ws

/-- Characters removed by the regex `^["'\s]+|["'\s]+$` in `generate_title`
(openai.py line 91): double quote, single quote, whitespace. -/
def isQuoteWs (c : Char) : Bool :=
  c == '"' || c == '\'' || c.isWhitespace

/-- Application of `re.sub` with the pattern above: drop the leading and the
trailing run of quote/whitespace characters. -/
def stripQuotesWs (s : String) : String :=
  String.mk (((s.toList.dropWhile isQuoteWs).reverse.dropWhile isQuoteWs).reverse)

/-- Membership in the character set of `title.rstrip(".!?，。！？」』\"'")`
(openai.py line 95). -/
def isRstripPunct (c : Char) : Bool :=
  c == '.' || c == '!' || c == '?' || c == '，' || c == '。' || c == '！' ||
  c == '？' || c == '」' || c == '』' || c == '"' || c == '\''

/-- Python `rstrip` over that character set: drop the trailing run of those
characters. -/
def rstripPunct (s : String) : String :=
  String.mk ((s.toList.reverse.dropWhile isRstripPunct).reverse)

/-- Sanitisation of the provider-returned title in the success path of
`generate_title` (openai.py lines 88-96): strip whitespace, strip surrounding
quotes/whitespace, cap at 8 words, strip trailing punctuation/quotes, default
to "New Chat" when empty.  `raw` stands for
`comp.choices[0].message.content` of a successful provider call. -/
def sanitizeProviderTitle (raw : String) : String :=
  let title0 := pyStrip raw
  let title1 := stripQuotesWs title0
  let words := splitWs title1
  let title2 := if words.length > 8 then joinSpace (words.take 8) else title1
  let title3 := rstripPunct title2
  if title3 == "" then "New Chat" else title3

/-- Python `text.find(c)`: the index of the first occurrence of `c` among the
code points of `text`, or `-1` when absent; here returned as `Option Nat`
before the `!= -1` filter of openai.py line 102 folds away the misses. -/
def charFindIdx (cs : List Char) (c : Char) : Option Nat :=
  cs.findIdx? (fun x => x == c)

/-- The fallback heuristic of `generate_title` (openai.py lines 98-105):
first sentence of the assistant reply (or of the user message when the reply
is empty) up to and including the first `.`, `!` or `?`, truncated to 8
words; "New Chat" when nothing is available. -/
def fallbackTitle (assistant_text user_text : String) : String :=
  let text := if assistant_text != "" then assistant_text else user_text
  if text == "" then "New Chat"
  else
    let cs := text.toList
    let found := ([charFindIdx cs '.', charFindIdx cs '!', charFindIdx cs '?']).filterMap id
    let sentence_end :=
      match found with
      | [] => cs.length
      | p :: ps => ps.foldl Nat.min p
    let first_sentence :=
      if sentence_end < cs.length then String.mk (cs.take (sentence_end + 1)) else text
    let words := (splitWs first_sentence).take 8
    let joined := pyStrip (joinSpace words)
    if joined == "" then "New Chat" else joined

/-- The whole of `generate_title` (openai.py lines 52-105).  The provider call
is external: `providerResult = some raw` models a successful call returning
`raw` as the title text (the empty string when `comp.choices` is empty), and
`none` models any provider failure, which sends the code into the fallback
heuristic. -/
def generateTitle (messages : List ChatMsg) (providerResult : Option String) : String :=
  if messages.isEmpty then "New Chat"
  else
    let first_user := messages.find? (fun m => m.role == "user" && m.content != "")
    let first_assistant := messages.find? (fun m => m.role == "assistant" && m.content != "")
    let user_text := pyStrip ((first_user.map ChatMsg.content).getD "")
    let assistant_text := pyStrip ((first_assistant.map ChatMsg.content).getD "")
    if user_text == "" && assistant_text == "" then "New Chat"
    else
      match providerResult with
      | some raw => sanitizeProviderTitle raw
      | none => fallbackTitle assistant_text user_text

/-- The title actually computed by the persistence phase of `chat_stream`
when it creates a conversation row (chat.py line 215):
`openai_messages[0]["content"][:50] + "..."` when that content is non-empty,
otherwise "New Chat".  `generate_title` is not called on this path. -/
def derivedTitle (firstContent : String) : String :=
  if firstContent != "" then pyTake firstContent 50 ++ "..." else "New Chat"

/-- Python `len(s.split())`: the number of whitespace-separated words. -/
def wordCountPy (s : String) : Nat :=
  (splitWs s).length

/-- The filter of the duplicate-submission guard (chat.py lines 242-250):
an existing message row in this conversation for this user with role `user`
and identical content. -/
def userDupPred (conversation_id user_id content : String) (r : Msg) : Bool :=
  r.conversation_id == conversation_id && r.user_id == user_id &&
  r.content == content && r.role == "user"

/-- Number of stored user-message rows of the given conversation/user with
the given content. -/
def countUserRows (msgs : List Msg) (conversation_id user_id content : String) : Nat :=
  (msgs.filter (userDupPred conversation_id user_id content)).length

/-- Step 1 of the persistence phase (chat.py lines 206-227): when no
conversation row matches `(conversation_id, user_id)`, insert one whose
title comes from `openai_messages[0]["content"]` (`openai_messages[0]`
raises `IndexError` on an empty prompt).  `tNow` is the database row
timestamp. -/
def persistConvStep (convs : List ConvRow) (conversation_id user_id model : String)
    (temperature : Rat) (prompt : List ChatMsg) (tNow : Nat) :
    Except String (List ConvRow) :=
  let convCheck := convs.filter
    (fun r => r.conversation_id == conversation_id && r.user_id == user_id)
  if convCheck.isEmpty then
    match prompt.head? with
    | none => Except.error "IndexError: list index out of range"
    | some m0 =>
      Except.ok (convs ++ [{ conversation_id := conversation_id,
                             user_id := user_id,
                             title := derivedTitle m0.content,
                             model := model,
                             temperature := temperature,
                             is_side_thread := false,
                             parent_message_id := none,
                             parent_conversation_id := none,
                             updated_at := tNow }])
  else Except.ok convs

/-- Step 2 of the persistence phase (chat.py lines 229-265): find the last
user-role entry of the assembled prompt by scanning it in reverse, and insert
it as a message row unless a row with identical
`(conversation_id, user_id, role="user", content)` already exists. -/
def persistUserStep (msgs : List Msg) (conversation_id user_id : String)
    (prompt : List ChatMsg) (userMsgId : String) (tUser : Nat) : List Msg :=
  match prompt.reverse.find? (fun m => m.role == "user") with
  | none => msgs
  | some mu =>
    if (msgs.filter (userDupPred conversation_id user_id mu.content)).isEmpty then
      msgs ++ [{ message_id := userMsgId,
                 conversation_id := conversation_id,
                 user_id := user_id,
                 role := "user",
                 content := mu.content,
                 created_at := tUser,
                 indices_for_button := StoredAnnotations.absent }]
    else msgs

/-- Step 3 insert (chat.py lines 267-279): the assistant row holding the
accumulated response, always inserted (even empty). -/
def assistantRow (conversation_id user_id full_response assistantMsgId : String)
    (tAssistant : Nat) : Msg :=
  { message_id := assistantMsgId,
    conversation_id := conversation_id,
    user_id := user_id,
    role := "assistant",
    content := full_response,
    created_at := tAssistant,
    indices_for_button := StoredAnnotations.absent }

/-- Step 4 (chat.py lines 281-286): touch `updated_at` of the conversation
row(s) matching `(conversation_id, user_id)`. -/
def persistTouch (convs : List ConvRow) (conversation_id user_id : String)
    (tNow : Nat) : List ConvRow :=
  convs.map (fun r =>
    if r.conversation_id == conversation_id && r.user_id == user_id then
      { r with updated_at := tNow }
    else r)

/-- The persistence phase of `generate_stream` (chat.py lines 203-286), as a
pure transformer of the store state: steps 1-4 in order.  Fresh uuids and row
timestamps are the `userMsgId`/`assistantMsgId`/`tUser`/`tAssistant`/`tNow`
parameters. -/
def persistPhase (convs : List ConvRow) (msgs : List Msg)
    (conversation_id user_id model : String) (temperature : Rat)
    (prompt : List ChatMsg) (full_response : String)
    (userMsgId assistantMsgId : String) (tUser tAssistant tNow : Nat) :
    Except String (List ConvRow × List Msg) := do
  let convs1 ← persistConvStep convs conversation_id user_id model temperature prompt tNow
  let msgs1 := persistUserStep msgs conversation_id user_id prompt userMsgId tUser
  let msgs2 := msgs1 ++ [assistantRow conversation_id user_id full_response assistantMsgId tAssistant]
  Except.ok (persistTouch convs1 conversation_id user_id tNow, msgs2)

/-- One iteration's worth of external observations in the streaming loop of
`generate_stream` (chat.py lines 186-201): the fragment pulled from
`stream_chat`, the result of `await request.is_disconnected()` checked right
after pulling it, and the event-loop time read after emitting it. -/
structure Frag where
  content : String
  time : Int
  disc : Bool
deriving DecidableEq, Repr

/-- The SSE events `generate_stream` can emit: `token`, the raw
`: keep-alive` comment, `error`, and `done` (with finish reason and
conversation id). -/
inductive Event where
  | token : String → Event
  | keepAlive : Event
  | error : String → Event
  | done : String → String → Event
deriving DecidableEq, Repr

/-- The fragment-consumption loop of `generate_stream` (chat.py lines
186-201), producing the emitted events paired with their emission times and
the accumulated `full_response`.  `acc` is the accumulator so far and `lk`
the current `last_keepalive` value; on a disconnect observation the loop
breaks before accumulating or emitting the pulled fragment; otherwise the
fragment is accumulated and emitted, and a keep-alive comment follows when
more than 15 seconds have passed since `last_keepalive`, which is then
reset. -/
def streamLoop : List Frag → String → Int → List (Event × Int) × String
  | [], acc, _ => ([], acc)
  | f :: fs, acc, lk =>
    if f.disc then ([], acc)
    else
      let acc' := acc ++ f.content
      if f.time - lk > 15 then
        let r := streamLoop fs acc' f.time
        ((Event.token f.content, f.time) :: (Event.keepAlive, f.time) :: r.1, r.2)
      else
        let r := streamLoop fs acc' lk
        ((Event.token f.content, f.time) :: r.1, r.2)

/-- The contents of the token events of an event trace, in order. -/
def tokensOf (evs : List (Event × Int)) : List String :=
  evs.filterMap (fun p =>
    match p.1 with
    | Event.token c => some c
    | _ => none)

/-- The whole of `generate_stream` (chat.py lines 176-301) for a run in which
the provider stream itself does not raise: consume fragments, then attempt
the persistence phase, converting any failure into an in-band `error` event,
and finally emit the `done` event.  `dbFail = some m` models an external
store failure (a raised exception whose text is `m`) anywhere in the
persistence block, after which the store state is not further modelled;
`dbFail = none` means every store call succeeds, so the persistence phase is
`persistPhase` (whose only internal failure is the `IndexError` on an empty
prompt).  `t0` is the initial `last_keepalive` reading and `tEnd` the time of
the terminal events. -/
def generateStream (frags : List Frag) (t0 : Int)
    (convs : List ConvRow) (msgs : List Msg)
    (conversation_id user_id model : String) (temperature : Rat)
    (prompt : List ChatMsg)
    (userMsgId assistantMsgId : String) (tUser tAssistant tNow : Nat)
    (dbFail : Option String) (tEnd : Int) :
    List (Event × Int) × List ConvRow × List Msg :=
  let r := streamLoop frags "" t0
  let full := r.2
  match dbFail with
  | some m =>
    (r.1 ++ [(Event.error ("Failed to save to database: " ++ m), tEnd),
             (Event.done "stop" conversation_id, tEnd)], convs, msgs)
  | none =>
    match persistPhase convs msgs conversation_id user_id model temperature
        prompt full userMsgId assistantMsgId tUser tAssistant tNow with
    | Except.error m =>
      (r.1 ++ [(Event.error ("Failed to save to database: " ++ m), tEnd),
               (Event.done "stop" conversation_id, tEnd)], convs, msgs)
    | Except.ok (convs', msgs') =>
      (r.1 ++ [(Event.done "stop" conversation_id, tEnd)], convs', msgs')

/-- Structural check on an event trace: every `keepAlive` event immediately
follows a `token` event emitted at the same instant (so keep-alives can only
be decided when a fragment arrives). -/
def kaAfterToken : List (Event × Int) → Bool
  | (Event.token _, t1) :: (Event.keepAlive, t2) :: rest =>
    t1 == t2 && kaAfterToken rest
  | (Event.keepAlive, _) :: _ => false
  | _ :: rest => kaAfterToken rest
  | [] => true

/-- Check that no two consecutive emitted events of a trace are more than
`bound` seconds apart. -/
def eventGapsWithin (bound : Int) : List (Event × Int) → Bool
  | [] => true
  | [_] => true
  | (_, t1) :: (e2, t2) :: rest =>
    (t2 - t1 ≤ bound) && eventGapsWithin bound ((e2, t2) :: rest)

/-- The side-thread title of conversations.py line 134: the selected text
prefixed with "Side: ", ellipsis-truncated at 30 characters when longer. -/
def sideThreadTitle (selected_text : String) : String :=
  if selected_text.length > 30 then "Side: " ++ pyTake selected_text 30 ++ "..."
  else "Side: " ++ selected_text

/-- The `current_indices` normalisation of conversations.py lines 153-155:
`parent_msg.data.get("indices_for_button") or []` followed by the
`isinstance(current_indices, list)` check, so anything that is not an actual
list becomes the empty list (a stored empty list is falsy in Python and also
becomes `[]`, the same value). -/
def normalizeAnnotations : StoredAnnotations → List Annotation
  | StoredAnnotations.stored l => l
  | _ => []

/-- The request body of `POST /api/conversations/side-thread`. -/
structure SideThreadPayload where
  user_id : String
  parent_message_id : String
  parent_conversation_id : String
  selected_text : String
  start_index : Int
  end_index : Int
deriving DecidableEq, Repr

/-- The `create_side_thread` handler (conversations.py lines 116-186) as a
transformer of the store state: `.single()` on the parent-message lookup
requires exactly one matching row; then a side-thread conversation row is
inserted, the new annotation is appended to the parent message's normalised
annotation list and written back, and the seeded initial user message is
inserted.  `sideThreadId`/`initialMsgId` are the fresh uuids and
`tConv`/`tMsg` the database row timestamps. -/
def createSideThread (convs : List ConvRow) (msgs : List Msg)
    (p : SideThreadPayload) (sideThreadId initialMsgId : String)
    (tConv tMsg : Nat) : Except String (List ConvRow × List Msg) := do
  let parent ←
    match msgs.filter (fun m =>
        m.message_id == p.parent_message_id && m.user_id == p.user_id) with
    | [m] => Except.ok m
    | _ => Except.error "Parent message not found"
  let convs1 := convs ++ [{ conversation_id := sideThreadId,
                            user_id := p.user_id,
                            title := sideThreadTitle p.selected_text,
                            model := "RohanGPT",
                            temperature := 7 / 10,
                            is_side_thread := true,
                            parent_message_id := some p.parent_message_id,
                            parent_conversation_id := some p.parent_conversation_id,
                            updated_at := tConv }]
  let current_indices := normalizeAnnotations parent.indices_for_button
  let new_button : Annotation := { start := p.start_index,
                                   stop := p.end_index,
                                   conversation_id := sideThreadId }
  let newList := current_indices ++ [new_button]
  let msgs1 := msgs.map (fun m =>
    if m.message_id == p.parent_message_id && m.user_id == p.user_id then
      { m with indices_for_button := StoredAnnotations.stored newList }
    else m)
  let msgs2 := msgs1 ++ [{ message_id := initialMsgId,
                           conversation_id := sideThreadId,
                           user_id := p.user_id,
                           role := "user",
                           content := "Discuss this: " ++ p.selected_text,
                           created_at := tMsg,
                           indices_for_button := StoredAnnotations.absent }]
  Except.ok (convs1, msgs2)

/-- The `data` part of `GET /api/conversations` (conversations.py lines
20-31): the user's conversations with `is_side_thread = false`, ordered by
`updated_at` descending, windowed by `range(offset, offset + page_size - 1)`
(an inclusive range, hence `page_size` rows). -/
def getConversationsData (convs : List ConvRow) (user_id : String)
    (page page_size : Nat) : List ConvRow :=
  let offset := (page - 1) * page_size
  let filtered := convs.filter (fun r =>
    r.user_id == user_id && r.is_side_thread == false)
  let sorted := filtered.mergeSort (fun a b => decide (b.updated_at ≤ a.updated_at))
  (sorted.drop offset).take page_size

/-- Helper: the duplicate-suppression append never disturbs the existing
prompt prefix; it returns the base list either unchanged or with one entry
appended. -/
theorem appendNewUser_extends_base (base messages : List ChatMsg) :
    base <+: appendNewUser base messages := by
  unfold appendNewUser
  split
  · exact List.prefix_refl _
  · split
    · exact List.prefix_refl _
    · split
      · exact List.prefix_append _ _
      · split
        · exact List.prefix_refl _
        · exact List.prefix_append _ _

/-- Helper: on a non-empty base, the duplicate-suppression append keeps the
base when the first user-role new message repeats the last prompt content and
appends that message otherwise. -/
theorem appendNewUser_spec (base messages : List ChatMsg) (m lastMsg : ChatMsg)
    (hm : messages.find? (fun x => x.role == "user") = some m)
    (hl : base.getLast? = some lastMsg) :
    appendNewUser base messages =
      if m.content = lastMsg.content then base else base ++ [m] := by
  have hne : messages.isEmpty = false := by
    cases messages with
    | nil => simp at hm
    | cons a as => rfl
  unfold appendNewUser
  rw [hne, hm, hl]
  simp only [Bool.false_eq_true, if_false]
  by_cases h : lastMsg.content = m.content
  · simp [h, beq_iff_eq]
  · have h2 : m.content ≠ lastMsg.content := fun hc => h hc.symm
    simp [h, h2, beq_iff_eq]

/-- C1 (amended): for every side-thread continuation whose parent message id
occurs in the parent conversation's (ascending) history, the assembled
prompt begins with the prefix of that history ending at and including the
first message whose id equals the parent message id. -/
theorem assembleSideThread_starts_with_parent (parentHist sideHist : List Msg)
    (parent_msg_id : String) (messages : List ChatMsg) (i : Nat)
    (hf : parentHist.findIdx? (fun m => m.message_id == parent_msg_id) = some i) :
    ((parentHist.take (i + 1)).map toChatMsg) <+:
      assembleSideThreadList parentHist sideHist parent_msg_id messages := by
  cases parentHist with
  | nil => simp [List.findIdx?] at hf
  | cons a as =>
    unfold assembleSideThreadList
    have hidx : parentMsgIndex (a :: as) parent_msg_id = (i : Int) := by
      unfold parentMsgIndex
      rw [hf]
    have hslice : parentSlice (a :: as) parent_msg_id = (a :: as).take (i + 1) := by
      unfold parentSlice
      rw [hidx]
      have h1 : ((i : Int) + 1).toNat = i + 1 := by omega
      rw [h1]
    simp only [List.isEmpty_cons, Bool.false_eq_true, if_false, hslice]
    exact List.IsPrefix.trans (List.prefix_append _ _) (appendNewUser_extends_base _ _)

/-- Example message row used in concrete inputs: conversation `c1`, user
`u1`. -/
def exMsg (id role content : String) (t : Nat) : Msg :=
  { message_id := id, conversation_id := "c1", user_id := "u1", role := role,
    content := content, created_at := t,
    indices_for_button := StoredAnnotations.absent }

/-- C1 witness: parent history `[user "A" (m1), assistant "B" (m2), user "C"
(m3)]` with parent message `m2` yields a prompt beginning with the first two
entries. -/
theorem assembleSideThread_starts_with_parent_witness :
    (([exMsg "m1" "user" "A" 0, exMsg "m2" "assistant" "B" 1,
       exMsg "m3" "user" "C" 2].take (1 + 1)).map toChatMsg) <+:
      assembleSideThreadList
        [exMsg "m1" "user" "A" 0, exMsg "m2" "assistant" "B" 1,
         exMsg "m3" "user" "C" 2] [] "m2" [] :=
  assembleSideThread_starts_with_parent _ _ _ _ 1 (by rfl)

/-- C1 counterexample: with a parent history that does not contain the parent
message id, the side-thread branch does not fail with any error: it returns
an ordinary (empty-prefix) prompt, here `Except.ok []`. -/
theorem assembleSideThread_absent_parent_ok :
    assembleSideThread [exMsg "m1" "user" "A" 0] [] "m2" [] =
      Except.ok [] := by rfl

/-- C2: continuing a non-side-thread conversation with non-empty stored
history and a first user-role entry `m` among the new messages assembles
history plus `m`, except that `m` is dropped when its content equals the
content of the last stored message. -/
theorem assembleMain_continuation (hist : List Msg) (messages : List ChatMsg)
    (m : ChatMsg) (hh : hist ≠ [])
    (hm : messages.find? (fun x => x.role == "user") = some m) :
    assembleMain hist messages =
      Except.ok (if m.content = (hist.getLast hh).content
                 then hist.map toChatMsg
                 else hist.map toChatMsg ++ [m]) := by
  have hne : hist.isEmpty = false := by
    cases hist with
    | nil => exact absurd rfl hh
    | cons a as => rfl
  have hl : (hist.map toChatMsg).getLast? = some (toChatMsg (hist.getLast hh)) := by
    rw [List.getLast?_map, List.getLast?_eq_getLast hist hh]
    rfl
  unfold assembleMain
  rw [hne]
  simp only [Bool.false_eq_true, if_false]
  rw [appendNewUser_spec (hist.map toChatMsg) messages m _ hm hl]
  rfl

/-- C2 witness: stored history `[user "Hi", assistant "Hello"]` with new
message `user "Hi"` (content differing from the last stored content)
assembles to the three-entry prompt. -/
theorem assembleMain_continuation_witness :
    assembleMain [exMsg "m1" "user" "Hi" 0, exMsg "m2" "assistant" "Hello" 1]
        [{ role := "user", content := "Hi" }] =
      Except.ok
        (if ({ role := "user", content := "Hi" } : ChatMsg).content =
            (([exMsg "m1" "user" "Hi" 0, exMsg "m2" "assistant" "Hello" 1].getLast
              (by decide)).content)
         then [exMsg "m1" "user" "Hi" 0, exMsg "m2" "assistant" "Hello" 1].map toChatMsg
         else [exMsg "m1" "user" "Hi" 0, exMsg "m2" "assistant" "Hello" 1].map toChatMsg
              ++ [{ role := "user", content := "Hi" }]) :=
  assembleMain_continuation _ _ _ (by decide) (by rfl)

/-- Helper: the stored-user-row count is additive over list append. -/
theorem countUserRows_append (l1 l2 : List Msg) (cid uid c : String) :
    countUserRows (l1 ++ l2) cid uid c =
      countUserRows l1 cid uid c + countUserRows l2 cid uid c := by
  unfold countUserRows
  rw [List.filter_append, List.length_append]

/-- Helper: a dup-guard filter is empty exactly when the count is zero. -/
theorem countUserRows_eq_zero_iff (msgs : List Msg) (cid uid c : String) :
    countUserRows msgs cid uid c = 0 ↔
      (msgs.filter (userDupPred cid uid c)).isEmpty = true := by
  unfold countUserRows
  rw [List.isEmpty_iff, List.length_eq_zero]

/-- Helper: the assistant row never matches the user-duplicate guard (its
role is `assistant`). -/
theorem countUserRows_assistantRow (cid uid resp aid : String) (tA : Nat)
    (cid2 uid2 c : String) :
    countUserRows [assistantRow cid uid resp aid tA] cid2 uid2 c = 0 := by
  unfold countUserRows assistantRow userDupPred
  simp

/-- Helper: inserting the new user message takes the matching-row count from
zero to one and otherwise leaves it unchanged. -/
theorem persistUserStep_count (msgs : List Msg) (cid uid : String)
    (prompt : List ChatMsg) (uid1 : String) (tU : Nat) (mu : ChatMsg)
    (hm : prompt.reverse.find? (fun m => m.role == "user") = some mu) :
    countUserRows (persistUserStep msgs cid uid prompt uid1 tU) cid uid mu.content =
      if countUserRows msgs cid uid mu.content = 0 then 1
      else countUserRows msgs cid uid mu.content := by
  simp only [persistUserStep, hm]
  by_cases hb : (msgs.filter (userDupPred cid uid mu.content)).isEmpty = true
  · rw [if_pos hb]
    have h0 : countUserRows msgs cid uid mu.content = 0 :=
      (countUserRows_eq_zero_iff msgs cid uid mu.content).mpr hb
    rw [countUserRows_append, h0]
    simp [countUserRows, userDupPred]
  · rw [if_neg hb]
    have h0 : countUserRows msgs cid uid mu.content ≠ 0 := fun hc =>
      hb ((countUserRows_eq_zero_iff msgs cid uid mu.content).mp hc)
    rw [if_neg h0]

/-- Helper: with a non-empty prompt, step 1 cannot fail. -/
theorem persistConvStep_ok (convs : List ConvRow) (cid uid model : String)
    (temp : Rat) (prompt : List ChatMsg) (tN : Nat) (hp : prompt ≠ []) :
    ∃ convs1, persistConvStep convs cid uid model temp prompt tN = Except.ok convs1 := by
  cases prompt with
  | nil => exact absurd rfl hp
  | cons a as =>
    simp only [persistConvStep, List.head?_cons]
    split
    · exact ⟨_, rfl⟩
    · exact ⟨_, rfl⟩

/-- Helper: with a non-empty prompt the persistence phase succeeds, and its
message-table output is exactly step 2's output followed by the assistant
row. -/
theorem persistPhase_msgs (convs : List ConvRow) (msgs : List Msg)
    (cid uid model : String) (temp : Rat) (prompt : List ChatMsg)
    (resp uid1 aid : String) (tU tA tN : Nat) (hp : prompt ≠ []) :
    ∃ convs2, persistPhase convs msgs cid uid model temp prompt resp uid1 aid tU tA tN =
      Except.ok (convs2,
        persistUserStep msgs cid uid prompt uid1 tU ++ [assistantRow cid uid resp aid tA]) := by
  obtain ⟨convs1, hc⟩ := persistConvStep_ok convs cid uid model temp prompt tN hp
  refine ⟨persistTouch convs1 cid uid tN, ?_⟩
  unfold persistPhase
  rw [hc]
  rfl

/-- C3: the persistence phase inserts the new user message only when no
identical `(conversation_id, user_id, role=user, content)` row exists, so
starting from a store with no such row, running the phase twice leaves
exactly one stored user-message row with that content. -/
theorem persistPhase_user_idempotent (convs : List ConvRow) (msgs : List Msg)
    (conversation_id user_id model : String) (temperature : Rat)
    (prompt : List ChatMsg) (resp1 resp2 id1 id2 id3 id4 : String)
    (tU1 tA1 tN1 tU2 tA2 tN2 : Nat) (mu : ChatMsg)
    (hm : prompt.reverse.find? (fun m => m.role == "user") = some mu)
    (h0 : countUserRows msgs conversation_id user_id mu.content = 0) :
    ∃ convs1 msgs1 convs2 msgs2,
      persistPhase convs msgs conversation_id user_id model temperature prompt
        resp1 id1 id2 tU1 tA1 tN1 = Except.ok (convs1, msgs1) ∧
      persistPhase convs1 msgs1 conversation_id user_id model temperature prompt
        resp2 id3 id4 tU2 tA2 tN2 = Except.ok (convs2, msgs2) ∧
      countUserRows msgs2 conversation_id user_id mu.content = 1 := by
  have hp : prompt ≠ [] := by
    intro h
    rw [h] at hm
    simp at hm
  obtain ⟨c1, h1⟩ := persistPhase_msgs convs msgs conversation_id user_id model
    temperature prompt resp1 id1 id2 tU1 tA1 tN1 hp
  set msgs1 := persistUserStep msgs conversation_id user_id prompt id1 tU1 ++
    [assistantRow conversation_id user_id resp1 id2 tA1] with hm1
  obtain ⟨c2, h2⟩ := persistPhase_msgs c1 msgs1 conversation_id user_id model
    temperature prompt resp2 id3 id4 tU2 tA2 tN2 hp
  have hcount1 : countUserRows msgs1 conversation_id user_id mu.content = 1 := by
    rw [hm1, countUserRows_append, countUserRows_assistantRow,
      persistUserStep_count msgs conversation_id user_id prompt id1 tU1 mu hm, h0]
    rfl
  have hcount2 : countUserRows (persistUserStep msgs1 conversation_id user_id prompt id3 tU2 ++
      [assistantRow conversation_id user_id resp2 id4 tA2]) conversation_id user_id mu.content = 1 := by
    rw [countUserRows_append, countUserRows_assistantRow,
      persistUserStep_count msgs1 conversation_id user_id prompt id3 tU2 mu hm, hcount1]
    rfl
  exact ⟨c1, msgs1, c2, _, h1, h2, hcount2⟩

/-- C3 witness: a concrete two-run execution from an empty store leaves one
stored user row with the submitted content. -/
theorem persistPhase_user_idempotent_witness :
    ∃ convs1 msgs1 convs2 msgs2,
      persistPhase [] [] "c1" "u1" "gpt-4" 1 [{ role := "user", content := "Hi" }]
        "A" "i1" "i2" 1 2 3 = Except.ok (convs1, msgs1) ∧
      persistPhase convs1 msgs1 "c1" "u1" "gpt-4" 1 [{ role := "user", content := "Hi" }]
        "B" "i3" "i4" 4 5 6 = Except.ok (convs2, msgs2) ∧
      countUserRows msgs2 "c1" "u1" ({ role := "user", content := "Hi" } : ChatMsg).content = 1 :=
  persistPhase_user_idempotent [] [] "c1" "u1" "gpt-4" 1
    [{ role := "user", content := "Hi" }] "A" "B" "i1" "i2" "i3" "i4" 1 2 3 4 5 6
    { role := "user", content := "Hi" } (by rfl) (by rfl)

/-- Helper: the title derived at conversation creation is never the empty
string. -/
theorem derivedTitle_ne_empty (c : String) : derivedTitle c ≠ "" := by
  unfold derivedTitle
  split
  · intro h
    have hlen := congrArg String.length h
    rw [String.length_append] at hlen
    have h3 : ("..." : String).length = 3 := rfl
    have h0 : ("" : String).length = 0 := rfl
    omega
  · decide

/-- C4 (amended): when the persistence phase finds no existing conversation
row, the Conversation row it inserts carries a non-empty title equal to the
first prompt entry's content truncated to its first 50 characters with an
ellipsis appended ("New Chat" when that content is empty); the provider
title call is not involved. -/
theorem persistConvStep_new_title (convs : List ConvRow) (cid uid model : String)
    (temp : Rat) (prompt : List ChatMsg) (tN : Nat) (m0 : ChatMsg)
    (hc : (convs.filter (fun r => r.conversation_id == cid && r.user_id == uid)).isEmpty = true)
    (hp : prompt.head? = some m0) :
    persistConvStep convs cid uid model temp prompt tN =
      Except.ok (convs ++ [{ conversation_id := cid,
                             user_id := uid,
                             title := derivedTitle m0.content,
                             model := model,
                             temperature := temp,
                             is_side_thread := false,
                             parent_message_id := none,
                             parent_conversation_id := none,
                             updated_at := tN }]) ∧
      derivedTitle m0.content ≠ "" := by
  constructor
  · simp only [persistConvStep, hc, hp, if_true]
  · exact derivedTitle_ne_empty m0.content

/-- C4 witness: a concrete step-1 insert carrying the derived title. -/
theorem persistConvStep_new_title_witness :
    persistConvStep [] "c1" "u1" "gpt-4" 1 [{ role := "user", content := "Hi" }] 3 =
      Except.ok [{ conversation_id := "c1",
                   user_id := "u1",
                   title := derivedTitle ({ role := "user", content := "Hi" } : ChatMsg).content,
                   model := "gpt-4",
                   temperature := 1,
                   is_side_thread := false,
                   parent_message_id := none,
                   parent_conversation_id := none,
                   updated_at := 3 }] ∧
      derivedTitle ({ role := "user", content := "Hi" } : ChatMsg).content ≠ "" :=
  persistConvStep_new_title [] "c1" "u1" "gpt-4" 1 [{ role := "user", content := "Hi" }]
    3 { role := "user", content := "Hi" } (by rfl) (by rfl)

/-- C4 counterexample: with a nine-word first prompt content, the inserted
conversation row's title has nine words and ends in a period, so it
satisfies neither the 8-word cap nor the no-trailing-punctuation part of the
title-derivation contract (and is not produced by `generate_title` at
all). -/
theorem persistConvStep_title_counterexample :
    persistConvStep [] "c1" "u1" "gpt-4" 1
        [{ role := "user", content := "one two three four five six seven eight nine" }] 3 =
      Except.ok [{ conversation_id := "c1",
                   user_id := "u1",
                   title := "one two three four five six seven eight nine...",
                   model := "gpt-4",
                   temperature := 1,
                   is_side_thread := false,
                   parent_message_id := none,
                   parent_conversation_id := none,
                   updated_at := 3 }] ∧
      wordCountPy "one two three four five six seven eight nine..." = 9 ∧
      ("one two three four five six seven eight nine..." : String).toList.getLast? = some '.' :=
  ⟨by rfl, by rfl, by rfl⟩

/-- C5 (code bug): on provider failure with assistant reply "Hello. World",
`generate_title` returns "Hello." — the first sentence including its
terminal punctuation mark — contradicting the claim and the function's own
docstring ("without quotes or trailing punctuation"). -/
theorem generateTitle_fallback_trailing_punct :
    generateTitle [{ role := "assistant", content := "Hello. World" }] none = "Hello." ∧
    ("Hello." : String).toList.getLast? = some '.' :=
  ⟨by rfl, by rfl⟩

/-- Helper: token extraction distributes over event-trace append. -/
theorem tokensOf_append (l1 l2 : List (Event × Int)) :
    tokensOf (l1 ++ l2) = tokensOf l1 ++ tokensOf l2 := by
  unfold tokensOf
  rw [List.filterMap_append]

/-- C6: when any persistence step fails (an exception with text `m` raised in
the database block), the run's token events are exactly those of the
corresponding fully-successful run (nothing already emitted is retracted),
the failure appears as an in-band error event, and the terminal done event
carrying the finish reason and the conversation id is still the last emitted
event. -/
theorem generateStream_persist_failure_events (frags : List Frag) (t0 : Int)
    (convs : List ConvRow) (msgs : List Msg)
    (conversation_id user_id model : String) (temperature : Rat)
    (prompt : List ChatMsg) (userMsgId assistantMsgId : String)
    (tUser tAssistant tNow : Nat) (m : String) (tEnd : Int) :
    tokensOf (generateStream frags t0 convs msgs conversation_id user_id model
        temperature prompt userMsgId assistantMsgId tUser tAssistant tNow
        (some m) tEnd).1 =
      tokensOf (generateStream frags t0 convs msgs conversation_id user_id model
        temperature prompt userMsgId assistantMsgId tUser tAssistant tNow
        none tEnd).1 ∧
    (Event.error ("Failed to save to database: " ++ m), tEnd) ∈
      (generateStream frags t0 convs msgs conversation_id user_id model
        temperature prompt userMsgId assistantMsgId tUser tAssistant tNow
        (some m) tEnd).1 ∧
    (generateStream frags t0 convs msgs conversation_id user_id model
        temperature prompt userMsgId assistantMsgId tUser tAssistant tNow
        (some m) tEnd).1.getLast? =
      some (Event.done "stop" conversation_id, tEnd) := by
  refine ⟨?_, ?_, ?_⟩
  · simp only [generateStream]
    cases hps : persistPhase convs msgs conversation_id user_id model temperature
        prompt (streamLoop frags "" t0).2 userMsgId assistantMsgId tUser tAssistant tNow with
    | error m2 => simp [tokensOf_append, tokensOf]
    | ok p => simp [tokensOf_append, tokensOf]
  · simp [generateStream]
  · simp only [generateStream]
    rw [show (streamLoop frags "" t0).1 ++
        [(Event.error ("Failed to save to database: " ++ m), tEnd),
         (Event.done "stop" conversation_id, tEnd)] =
        ((streamLoop frags "" t0).1 ++
         [(Event.error ("Failed to save to database: " ++ m), tEnd)]) ++
        [(Event.done "stop" conversation_id, tEnd)] by simp]
    rw [List.getLast?_concat]

/-- Helper: a token event contributes its content to the token extraction. -/
theorem tokensOf_token_cons (c : String) (t : Int) (l : List (Event × Int)) :
    tokensOf ((Event.token c, t) :: l) = c :: tokensOf l := rfl

/-- Helper: a keep-alive event contributes nothing to the token extraction. -/
theorem tokensOf_keepAlive_cons (t : Int) (l : List (Event × Int)) :
    tokensOf ((Event.keepAlive, t) :: l) = tokensOf l := rfl

/-- Helper: when the client is first observed disconnected at fragment index
`k`, the loop emits token events for exactly the first `k` fragments and
accumulates exactly their concatenation onto `acc` (the fragment pulled at
the disconnection check is neither emitted nor accumulated). -/
theorem streamLoop_disconnect (frags : List Frag) (k : Nat) (acc : String) (lk : Int)
    (hk : k < frags.length)
    (hd : (frags.get ⟨k, hk⟩).disc = true)
    (hprev : ∀ i, (hi : i < k) → (frags.get ⟨i, Nat.lt_trans hi hk⟩).disc = false) :
    tokensOf (streamLoop frags acc lk).1 = (frags.take k).map Frag.content ∧
    (streamLoop frags acc lk).2 =
      ((frags.take k).map Frag.content).foldl (fun r s => r ++ s) acc := by
  induction frags generalizing k acc lk with
  | nil => exact absurd hk (Nat.not_lt_zero k)
  | cons f fs ih =>
    cases k with
    | zero =>
      have hf : f.disc = true := hd
      constructor
      · simp [streamLoop, hf, tokensOf]
      · simp [streamLoop, hf]
    | succ j =>
      have hf : f.disc = false := hprev 0 (Nat.succ_pos j)
      have hk' : j < fs.length := Nat.lt_of_succ_lt_succ hk
      have hd' : (fs.get ⟨j, hk'⟩).disc = true := hd
      have hprev' : ∀ i, (hi : i < j) → (fs.get ⟨i, Nat.lt_trans hi hk'⟩).disc = false :=
        fun i hi => hprev (i + 1) (Nat.succ_lt_succ hi)
      by_cases ht : f.time - lk > 15
      · obtain ⟨h1, h2⟩ := ih j (acc ++ f.content) f.time hk' hd' hprev'
        constructor
        · simp only [streamLoop, hf, Bool.false_eq_true, if_false, if_pos ht,
            tokensOf_token_cons, tokensOf_keepAlive_cons, h1, List.take_succ_cons,
            List.map_cons]
        · simp only [streamLoop, hf, Bool.false_eq_true, if_false, if_pos ht, h2,
            List.take_succ_cons, List.map_cons, List.foldl_cons]
      · obtain ⟨h1, h2⟩ := ih j (acc ++ f.content) lk hk' hd' hprev'
        constructor
        · simp only [streamLoop, hf, Bool.false_eq_true, if_false, if_neg ht,
            tokensOf_token_cons, h1, List.take_succ_cons, List.map_cons]
        · simp only [streamLoop, hf, Bool.false_eq_true, if_false, if_neg ht, h2,
            List.take_succ_cons, List.map_cons, List.foldl_cons]

/-- C7: when the client is first observed disconnected at fragment index `k`,
the stream run emits token events for exactly the fragments consumed before
that point, and the persistence phase still runs, storing as the assistant
row exactly the concatenation of those fragments. -/
theorem generateStream_disconnect_partial (frags : List Frag) (k : Nat) (t0 : Int)
    (convs : List ConvRow) (msgs : List Msg)
    (conversation_id user_id model : String) (temperature : Rat)
    (prompt : List ChatMsg) (userMsgId assistantMsgId : String)
    (tUser tAssistant tNow : Nat) (tEnd : Int)
    (hk : k < frags.length)
    (hd : (frags.get ⟨k, hk⟩).disc = true)
    (hprev : ∀ i, (hi : i < k) → (frags.get ⟨i, Nat.lt_trans hi hk⟩).disc = false)
    (hp : prompt ≠ []) :
    tokensOf (generateStream frags t0 convs msgs conversation_id user_id model
        temperature prompt userMsgId assistantMsgId tUser tAssistant tNow none tEnd).1 =
      (frags.take k).map Frag.content ∧
    assistantRow conversation_id user_id
        (String.join ((frags.take k).map Frag.content)) assistantMsgId tAssistant ∈
      (generateStream frags t0 convs msgs conversation_id user_id model
        temperature prompt userMsgId assistantMsgId tUser tAssistant tNow none tEnd).2.2 := by
  obtain ⟨h1, h2⟩ := streamLoop_disconnect frags k "" t0 hk hd hprev
  have hfull : (streamLoop frags "" t0).2 =
      String.join ((frags.take k).map Frag.content) := by
    rw [h2]
    rfl
  obtain ⟨c2, hps⟩ := persistPhase_msgs convs msgs conversation_id user_id model
    temperature prompt (streamLoop frags "" t0).2 userMsgId assistantMsgId
    tUser tAssistant tNow hp
  constructor
  · simp only [generateStream, hps, tokensOf_append]
    rw [h1]
    simp [tokensOf]
  · simp only [generateStream, hps]
    rw [← hfull]
    exact List.mem_append_right _ (List.mem_singleton.mpr rfl)

/-- Example fragment schedule: four fragments, client first observed
disconnected while pulling the fourth. -/
def exFrags : List Frag :=
  [{ content := "a", time := 0, disc := false },
   { content := "b", time := 1, disc := false },
   { content := "c", time := 2, disc := false },
   { content := "d", time := 3, disc := true }]

/-- C7 witness: in the concrete run over `exFrags`, token events cover
exactly the first three fragments and the stored assistant row holds their
concatenation. -/
theorem generateStream_disconnect_partial_witness :
    tokensOf (generateStream exFrags 0 [] [] "c1" "u1" "gpt-4" 1
        [{ role := "user", content := "Hi" }] "i1" "i2" 1 2 3 none 9).1 =
      (exFrags.take 3).map Frag.content ∧
    assistantRow "c1" "u1" (String.join ((exFrags.take 3).map Frag.content)) "i2" 2 ∈
      (generateStream exFrags 0 [] [] "c1" "u1" "gpt-4" 1
        [{ role := "user", content := "Hi" }] "i1" "i2" 1 2 3 none 9).2.2 :=
  generateStream_disconnect_partial exFrags 3 0 [] [] "c1" "u1" "gpt-4" 1
    [{ role := "user", content := "Hi" }] "i1" "i2" 1 2 3 9
    (by decide) (by rfl) (by intro i hi; interval_cases i <;> rfl) (by decide)

/-- Times at which keep-alive events were emitted, in order. -/
def kaTimes (evs : List (Event × Int)) : List Int :=
  evs.filterMap (fun p =>
    match p.1 with
    | Event.keepAlive => some p.2
    | _ => none)

/-- Check that each successive value exceeds the previous one (starting from
`prev`) by more than `bound`. -/
def stepsExceed (bound : Int) : Int → List Int → Bool
  | _, [] => true
  | prev, t :: ts => decide (t - prev > bound) && stepsExceed bound t ts

/-- Helper: two adjacent token events skip the first in the placement
check. -/
theorem kaAfterToken_token_token (c1 c2 : String) (t1 t2 : Int)
    (rest : List (Event × Int)) :
    kaAfterToken ((Event.token c1, t1) :: (Event.token c2, t2) :: rest) =
      kaAfterToken ((Event.token c2, t2) :: rest) := rfl

/-- Helper: a token followed by a keep-alive passes the placement check when
the times agree and the remainder passes. -/
theorem kaAfterToken_token_ka (c : String) (t1 t2 : Int)
    (rest : List (Event × Int)) :
    kaAfterToken ((Event.token c, t1) :: (Event.keepAlive, t2) :: rest) =
      ((t1 == t2) && kaAfterToken rest) := rfl

/-- Helper: keep-alive time extraction skips token events. -/
theorem kaTimes_token_cons (c : String) (t : Int) (l : List (Event × Int)) :
    kaTimes ((Event.token c, t) :: l) = kaTimes l := rfl

/-- Helper: keep-alive time extraction collects keep-alive events. -/
theorem kaTimes_ka_cons (t : Int) (l : List (Event × Int)) :
    kaTimes ((Event.keepAlive, t) :: l) = t :: kaTimes l := rfl

/-- Helper: the loop's output is empty or starts with a token event. -/
theorem streamLoop_shape (fs : List Frag) (acc : String) (lk : Int) :
    (streamLoop fs acc lk).1 = [] ∨
    ∃ c t rest, (streamLoop fs acc lk).1 = (Event.token c, t) :: rest := by
  cases fs with
  | nil => exact Or.inl rfl
  | cons f fs' =>
    by_cases hd : f.disc = true
    · exact Or.inl (by simp [streamLoop, hd])
    · have hf : f.disc = false := by
        revert hd
        cases f.disc <;> simp
      by_cases ht : f.time - lk > 15
      · refine Or.inr ⟨f.content, f.time,
          (Event.keepAlive, f.time) :: (streamLoop fs' (acc ++ f.content) f.time).1, ?_⟩
        simp [streamLoop, hf, ht]
      · refine Or.inr ⟨f.content, f.time,
          (streamLoop fs' (acc ++ f.content) lk).1, ?_⟩
        simp [streamLoop, hf, ht]

/-- Helper: in every run, each keep-alive event immediately follows a token
event emitted at the same instant. -/
theorem streamLoop_kaAfterToken (frags : List Frag) (acc : String) (lk : Int) :
    kaAfterToken (streamLoop frags acc lk).1 = true := by
  induction frags generalizing acc lk with
  | nil => rfl
  | cons f fs ih =>
    by_cases hd : f.disc = true
    · simp [streamLoop, hd, kaAfterToken]
    · have hf : f.disc = false := by
        revert hd
        cases f.disc <;> simp
      by_cases ht : f.time - lk > 15
      · simp only [streamLoop, hf, Bool.false_eq_true, if_false, if_pos ht]
        rw [kaAfterToken_token_ka]
        simp only [beq_self_eq_true, Bool.true_and]
        exact ih (acc ++ f.content) f.time
      · simp only [streamLoop, hf, Bool.false_eq_true, if_false, if_neg ht]
        rcases streamLoop_shape fs (acc ++ f.content) lk with h | ⟨c, t, rest, h⟩
        · rw [h]
          rfl
        · rw [h, kaAfterToken_token_token]
          have hih := ih (acc ++ f.content) lk
          rw [h] at hih
          exact hih

/-- Helper: in every run, successive keep-alive emission times (starting from
the initial `last_keepalive` value) are each more than 15 seconds apart: the
timer resets only when a keep-alive is emitted. -/
theorem streamLoop_kaTimes (frags : List Frag) (acc : String) (lk : Int) :
    stepsExceed 15 lk (kaTimes (streamLoop frags acc lk).1) = true := by
  induction frags generalizing acc lk with
  | nil => rfl
  | cons f fs ih =>
    by_cases hd : f.disc = true
    · simp [streamLoop, hd, kaTimes, stepsExceed]
    · have hf : f.disc = false := by
        revert hd
        cases f.disc <;> simp
      by_cases ht : f.time - lk > 15
      · simp only [streamLoop, hf, Bool.false_eq_true, if_false, if_pos ht]
        rw [kaTimes_token_cons, kaTimes_ka_cons]
        simp only [stepsExceed, decide_eq_true ht, Bool.true_and]
        exact ih (acc ++ f.content) f.time
      · simp only [streamLoop, hf, Bool.false_eq_true, if_false, if_neg ht]
        rw [kaTimes_token_cons]
        exact ih (acc ++ f.content) lk

/-- Complete characterisation of keep-alive placement in a trace of token and
keep-alive events, walking the trace while tracking the last keep-alive time
`lk` (initially the stream-start reading): each token event emitted at time
`t` is immediately followed by a keep-alive — at that same instant, with the
tracker resetting to `t` — exactly when `t - lk > bound`, and is followed by
no keep-alive (tracker unchanged) exactly when `t - lk ≤ bound`; a trace
starting with a keep-alive, or containing any other event, fails the
check. -/
def kaExact (bound : Int) : Int → List (Event × Int) → Bool
  | _, [] => true
  | lk, (Event.token _, t) :: (Event.keepAlive, t2) :: rest =>
    decide (t - lk > bound) && (t == t2) && kaExact bound t rest
  | lk, (Event.token _, t) :: rest =>
    decide (t - lk ≤ bound) && kaExact bound lk rest
  | _, _ => false

/-- Helper: a token followed by a keep-alive passes the exact check when the
threshold was exceeded, the times agree, and the remainder passes with the
tracker reset. -/
theorem kaExact_token_ka (bound lk : Int) (c : String) (t t2 : Int)
    (rest : List (Event × Int)) :
    kaExact bound lk ((Event.token c, t) :: (Event.keepAlive, t2) :: rest) =
      (decide (t - lk > bound) && (t == t2) && kaExact bound t rest) := rfl

/-- Helper: a final token with no keep-alive after it passes the exact check
only when the threshold was not exceeded. -/
theorem kaExact_token_nil (bound lk : Int) (c : String) (t : Int) :
    kaExact bound lk ((Event.token c, t) :: []) =
      (decide (t - lk ≤ bound) && kaExact bound lk []) := rfl

/-- Helper: a token directly followed by another token passes the exact check
only when the threshold was not exceeded, the tracker carrying over. -/
theorem kaExact_token_token (bound lk : Int) (c c2 : String) (t t2 : Int)
    (rest : List (Event × Int)) :
    kaExact bound lk ((Event.token c, t) :: (Event.token c2, t2) :: rest) =
      (decide (t - lk ≤ bound) &&
        kaExact bound lk ((Event.token c2, t2) :: rest)) := rfl

/-- Helper: every run's trace passes the exact keep-alive check — in both
directions: a keep-alive appears after a token when more than 15 seconds
have elapsed since the last keep-alive (or stream start), and no keep-alive
appears when they have not. -/
theorem streamLoop_kaExact (frags : List Frag) (acc : String) (lk : Int) :
    kaExact 15 lk (streamLoop frags acc lk).1 = true := by
  induction frags generalizing acc lk with
  | nil => rfl
  | cons f fs ih =>
    by_cases hd : f.disc = true
    · simp [streamLoop, hd, kaExact]
    · have hf : f.disc = false := by
        revert hd
        cases f.disc <;> simp
      by_cases ht : f.time - lk > 15
      · simp only [streamLoop, hf, Bool.false_eq_true, if_false, if_pos ht]
        rw [kaExact_token_ka]
        simp only [decide_eq_true ht, beq_self_eq_true, Bool.true_and]
        exact ih (acc ++ f.content) f.time
      · simp only [streamLoop, hf, Bool.false_eq_true, if_false, if_neg ht]
        have hle : f.time - lk ≤ 15 := le_of_not_lt ht
        rcases streamLoop_shape fs (acc ++ f.content) lk with h | ⟨c, t, rest, h⟩
        · rw [h, kaExact_token_nil]
          simp only [decide_eq_true hle, Bool.true_and]
          rfl
        · rw [h, kaExact_token_token]
          have hih := ih (acc ++ f.content) lk
          rw [h] at hih
          simp only [decide_eq_true hle, Bool.true_and]
          exact hih

/-- C8 (amended): the keep-alive decision is evaluated only when a fragment
arrives, and then a keep-alive comment is emitted immediately after the
token event exactly when more than 15 seconds of wall clock have passed
since the last keep-alive emission (or stream start) — `kaExact` forces the
keep-alive whenever the threshold is exceeded and forbids it whenever it is
not — with the timer resetting only on keep-alive emission (not on token
events), so every keep-alive follows a token at the same instant and
successive keep-alives are each more than 15 seconds apart. -/
theorem streamLoop_keepalive_behavior (frags : List Frag) (acc : String) (lk : Int) :
    kaExact 15 lk (streamLoop frags acc lk).1 = true ∧
    kaAfterToken (streamLoop frags acc lk).1 = true ∧
    stepsExceed 15 lk (kaTimes (streamLoop frags acc lk).1) = true :=
  ⟨streamLoop_kaExact frags acc lk, streamLoop_kaAfterToken frags acc lk,
   streamLoop_kaTimes frags acc lk⟩

/-- C8 counterexample: with fragments arriving at times 0 and 100, the trace
is token(0), token(100), keep-alive(100): the two consecutive emitted events
at 0 and 100 are 100 seconds apart with no keep-alive between them, so it is
false that a keep-alive comment is emitted whenever more than 15 seconds
elapse since the last emitted event — no event at all is emitted during a
fragment-free gap. -/
theorem streamLoop_gap_counterexample :
    eventGapsWithin 15 (streamLoop
      [{ content := "a", time := 0, disc := false },
       { content := "b", time := 100, disc := false }] "" 0).1 = false ∧
    (streamLoop
      [{ content := "a", time := 0, disc := false },
       { content := "b", time := 100, disc := false }] "" 0).1 =
      [(Event.token "a", 0), (Event.token "b", 100), (Event.keepAlive, 100)] :=
  ⟨by rfl, by rfl⟩

/-- Helper: filtering an annotation-update map by a predicate that ignores
the annotation column commutes with the update. -/
theorem filter_map_annotation_update (msgs : List Msg) (pred : Msg → Bool)
    (newAnn : StoredAnnotations)
    (hpred : ∀ m, pred { m with indices_for_button := newAnn } = pred m) :
    List.filter pred
        (msgs.map (fun m => if pred m then { m with indices_for_button := newAnn } else m)) =
      (List.filter pred msgs).map (fun m => { m with indices_for_button := newAnn }) := by
  induction msgs with
  | nil => rfl
  | cons a as ih =>
    by_cases ha : pred a = true
    · simp only [List.map_cons, if_pos ha, List.filter_cons, hpred, ha, if_true, ih]
    · have ha' : pred a = false := by
        revert ha
        cases pred a <;> simp
      simp only [List.map_cons, ha', Bool.false_eq_true, if_false, List.filter_cons,
        ha', ih]

/-- C9: a successful side-thread creation replaces the parent message's
annotation list by its prior (normalised) list with exactly the one new
entry appended, and writes it back to the parent message row. -/
theorem createSideThread_appends_button_entry (convs : List ConvRow) (msgs : List Msg)
    (p : SideThreadPayload) (sideThreadId initialMsgId : String) (tConv tMsg : Nat)
    (parent : Msg)
    (hp : msgs.filter (fun m =>
        m.message_id == p.parent_message_id && m.user_id == p.user_id) = [parent])
    (hid : initialMsgId ≠ p.parent_message_id) :
    ∃ convs' msgs',
      createSideThread convs msgs p sideThreadId initialMsgId tConv tMsg =
        Except.ok (convs', msgs') ∧
      (msgs'.filter (fun m =>
          m.message_id == p.parent_message_id && m.user_id == p.user_id)).map
          Msg.indices_for_button =
        [StoredAnnotations.stored (normalizeAnnotations parent.indices_for_button ++
          [{ start := p.start_index, stop := p.end_index,
             conversation_id := sideThreadId }])] := by
  have hparent : (parent.message_id == p.parent_message_id &&
      parent.user_id == p.user_id) = true := by
    have hmem : parent ∈ msgs.filter (fun m =>
        m.message_id == p.parent_message_id && m.user_id == p.user_id) := by
      rw [hp]
      exact List.mem_singleton.mpr rfl
    exact (List.mem_filter.mp hmem).2
  unfold createSideThread
  rw [hp]
  refine ⟨_, _, rfl, ?_⟩
  rw [List.filter_append]
  have hb : (initialMsgId == p.parent_message_id) = false :=
    beq_eq_false_iff_ne.mpr hid
  have hseed : List.filter (fun m =>
      m.message_id == p.parent_message_id && m.user_id == p.user_id)
      [{ message_id := initialMsgId, conversation_id := sideThreadId,
         user_id := p.user_id, role := "user",
         content := "Discuss this: " ++ p.selected_text,
         created_at := tMsg, indices_for_button := StoredAnnotations.absent }] =
      ([] : List Msg) := by
    simp [List.filter_cons, hb]
  rw [hseed, List.append_nil]
  have hupd := filter_map_annotation_update msgs
    (fun m => m.message_id == p.parent_message_id && m.user_id == p.user_id)
    (StoredAnnotations.stored (normalizeAnnotations parent.indices_for_button ++
      [({ start := p.start_index, stop := p.end_index,
          conversation_id := sideThreadId } : Annotation)]))
    (fun m => rfl)
  rw [hupd, hp]
  rfl

/-- C9 witness: a concrete side-thread creation appending to an existing
one-entry annotation list. -/
theorem createSideThread_appends_button_entry_witness :
    ∃ convs' msgs',
      createSideThread []
        [{ message_id := "m1", conversation_id := "c1", user_id := "u1",
           role := "assistant", content := "B", created_at := 1,
           indices_for_button := StoredAnnotations.stored
             [{ start := 0, stop := 1, conversation_id := "old" }] }]
        { user_id := "u1", parent_message_id := "m1", parent_conversation_id := "c1",
          selected_text := "B", start_index := 2, end_index := 3 }
        "side1" "m2" 5 6 = Except.ok (convs', msgs') ∧
      (msgs'.filter (fun m => m.message_id == "m1" && m.user_id == "u1")).map
          Msg.indices_for_button =
        [StoredAnnotations.stored (normalizeAnnotations
          (StoredAnnotations.stored [{ start := 0, stop := 1, conversation_id := "old" }]) ++
          [{ start := 2, stop := 3, conversation_id := "side1" }])] :=
  createSideThread_appends_button_entry []
    [{ message_id := "m1", conversation_id := "c1", user_id := "u1",
       role := "assistant", content := "B", created_at := 1,
       indices_for_button := StoredAnnotations.stored
         [{ start := 0, stop := 1, conversation_id := "old" }] }]
    { user_id := "u1", parent_message_id := "m1", parent_conversation_id := "c1",
      selected_text := "B", start_index := 2, end_index := 3 }
    "side1" "m2" 5 6
    { message_id := "m1", conversation_id := "c1", user_id := "u1",
      role := "assistant", content := "B", created_at := 1,
      indices_for_button := StoredAnnotations.stored
        [{ start := 0, stop := 1, conversation_id := "old" }] }
    (by rfl) (by decide)

/-- C10: every row returned by the conversation listing belongs to the
requesting user and has `is_side_thread = false` — side threads never appear
on any page — and the page is ordered by `updated_at` descending. -/
theorem getConversations_no_side_threads (convs : List ConvRow) (user_id : String)
    (page page_size : Nat) :
    (getConversationsData convs user_id page page_size).all
        (fun r => r.user_id == user_id && r.is_side_thread == false) = true ∧
    (getConversationsData convs user_id page page_size).Pairwise
        (fun a b => b.updated_at ≤ a.updated_at) := by
  constructor
  · rw [List.all_eq_true]
    intro r hr
    have hr1 : r ∈ (convs.filter (fun r =>
        r.user_id == user_id && r.is_side_thread == false)).mergeSort
        (fun a b => decide (b.updated_at ≤ a.updated_at)) := by
      unfold getConversationsData at hr
      exact List.mem_of_mem_drop (List.mem_of_mem_take hr)
    exact (List.mem_filter.mp (List.mem_mergeSort.mp hr1)).2
  · have hsorted : ((convs.filter (fun r =>
        r.user_id == user_id && r.is_side_thread == false)).mergeSort
        (fun a b => decide (b.updated_at ≤ a.updated_at))).Pairwise
        (fun a b => decide (b.updated_at ≤ a.updated_at) = true) :=
      List.sorted_mergeSort
        (fun a b c hab hbc => by
          have h1 := of_decide_eq_true hab
          have h2 := of_decide_eq_true hbc
          exact decide_eq_true (le_trans h2 h1))
        (fun a b => by
          by_cases h : b.updated_at ≤ a.updated_at
          · simp [decide_eq_true h]
          · have h2 : a.updated_at ≤ b.updated_at := le_of_not_le h
            simp [decide_eq_true h2])
        (convs.filter (fun r => r.user_id == user_id && r.is_side_thread == false))
    have hsub : (getConversationsData convs user_id page page_size).Sublist
        ((convs.filter (fun r =>
          r.user_id == user_id && r.is_side_thread == false)).mergeSort
          (fun a b => decide (b.updated_at ≤ a.updated_at))) := by
      unfold getConversationsData
      exact (List.take_sublist _ _).trans (List.drop_sublist _ _)
    exact (List.Pairwise.sublist hsub hsorted).imp (fun h => of_decide_eq_true h)
